import Mathlib

/-!
Shallow embedding of the scan-and-go checkout backend (src/index.js).

The in-memory collections (stores, products, orders, verifications) become a
`ServerState` record, and each HTTP handler becomes a pure function from a
request (plus the current clock reading in epoch milliseconds, and for
`verifyOrder` the generated uuid) to a result and a new state.  ISO timestamp
strings are modelled as epoch milliseconds; `Math.round(x)` of a nonnegative
quotient is modelled by exact half-up rounding on naturals.
-/

namespace ScanAndGo

/-- A catalog product (products.json entry), read-only after load. -/
structure Product where
  productId : String
  barcode : String
  name : String
  brand : String
  category : String
  price : Nat
  deriving DecidableEq

/-- A store (stores.json entry), read-only after load. -/
structure Store where
  storeId : String
  upiId : String
  upiQrCode : String
  deriving DecidableEq

/-- An order line: the JS handler builds `{...product, quantity, itemTotal}`;
we keep the product snapshot nested, which carries the same fields. -/
structure OrderItem where
  product : Product
  quantity : Nat
  itemTotal : Nat
  deriving DecidableEq

/-- The order lifecycle statuses appearing in src/index.js. -/
inductive OrderStatus where
  | pending_payment
  | payment_claimed
  | verified
  | rejected
  | completed
  deriving DecidableEq

/-- An order record.  Fields that JS leaves `undefined` until a transition
writes them are `Option`s.  Timestamps are epoch milliseconds. -/
structure Order where
  orderId : String
  storeId : String
  customerPhone : String
  items : List OrderItem
  subtotal : Nat
  tax : Nat
  total : Nat
  status : OrderStatus
  createdAt : Nat
  expiresAt : Nat
  paymentClaimedAt : Option Nat
  utrLast4 : Option String
  paidAmount : Option Nat
  verifiedAt : Option Nat
  verifiedBy : Option String
  verificationNotes : Option String
  rejectedAt : Option Nat
  rejectedBy : Option String
  rejectionReason : Option String
  completedAt : Option Nat
  deriving DecidableEq

/-- One entry of the append-only verification log. -/
structure VerificationRecord where
  verificationId : String
  orderId : String
  cashierId : String
  verified : Bool
  notes : Option String
  timestamp : Nat
  deriving DecidableEq

/-- The module-level mutable collections of src/index.js. -/
structure ServerState where
  stores : List Store
  products : List Product
  orders : List Order
  verifications : List VerificationRecord
  deriving DecidableEq

/-- JS `Math.round (num / den)` for nonnegative `num` and positive `den`:
half-up rounding, i.e. `⌊num/den + 1/2⌋`. -/
def roundHalfUp (num den : Nat) : Nat :=
  (2 * num + den) / (2 * den)

/-- `orders.find((o) => o.orderId === orderId)`. -/
def findOrder (orders : List Order) (oid : String) : Option Order :=
  orders.find? (fun o => o.orderId == oid)

/-- In-place mutation of the object returned by `Array.find`: rewrite the
first element satisfying `p`, leave everything else alone. -/
def updateFirst (p : Order → Bool) (f : Order → Order) : List Order → List Order
  | [] => []
  | o :: rest => if p o then f o :: rest else o :: updateFirst p f rest

/-- Mutation of the first order with the given id. -/
def updateOrder (orders : List Order) (oid : String) (f : Order → Order) : List Order :=
  updateFirst (fun o => o.orderId == oid) f orders

/-- One requested order line in a create-order request body. -/
structure CreateItemReq where
  productId : String
  quantity : Nat
  deriving DecidableEq

/-- Create-order request body.  `storeId = none` models a missing/falsy
storeId; a missing items field is the empty list. -/
structure CreateOrderReq where
  storeId : Option String
  items : List CreateItemReq
  customerPhone : Option String
  deriving DecidableEq

/-- UPI payment details returned alongside a created order. -/
structure UpiDetails where
  upiId : String
  upiQrCode : String
  deriving DecidableEq

/-- Outcome of POST /api/orders/create. -/
inductive CreateOrderResult where
  | badRequest
  | productNotFound (message : String)
  | ok (order : Order) (upiDetails : Option UpiDetails)
  deriving DecidableEq

/-- The `items.map` body: resolve each requested item against the catalog,
throwing (here: `Except.error`) at the first missing product. -/
def resolveItems (prods : List Product) : List CreateItemReq → Except String (List OrderItem)
  | [] => Except.ok []
  | item :: rest =>
    match prods.find? (fun p => p.productId == item.productId) with
    | none => Except.error ("Product " ++ item.productId ++ " not found")
    | some product =>
      match resolveItems prods rest with
      | Except.error e => Except.error e
      | Except.ok tail =>
        Except.ok ({ product := product, quantity := item.quantity,
                     itemTotal := product.price * item.quantity } :: tail)

/-- The order object literal built by the create handler: subtotal accumulated
over the resolved items, 5% GST rounded (`Math.round(subtotal * 0.05)` =
`roundHalfUp subtotal 20`), expiry 10 minutes after creation. -/
def buildOrder (now : Nat) (storeId : String) (customerPhone : Option String)
    (orderItems : List OrderItem) : Order :=
  let subtotal := orderItems.foldl (fun s it => s + it.itemTotal) 0
  let tax := roundHalfUp subtotal 20
  let total := subtotal + tax
  { orderId := "ORD" ++ toString now
    storeId := storeId
    customerPhone := customerPhone.getD "anonymous"
    items := orderItems
    subtotal := subtotal
    tax := tax
    total := total
    status := OrderStatus.pending_payment
    createdAt := now
    expiresAt := now + 10 * 60 * 1000
    paymentClaimedAt := none
    utrLast4 := none
    paidAmount := none
    verifiedAt := none
    verifiedBy := none
    verificationNotes := none
    rejectedAt := none
    rejectedBy := none
    rejectionReason := none
    completedAt := none }

/-- POST /api/orders/create. -/
def createOrder (now : Nat) (st : ServerState) (req : CreateOrderReq) :
    CreateOrderResult × ServerState :=
  match req.storeId with
  | none => (CreateOrderResult.badRequest, st)
  | some storeId =>
    if req.items.isEmpty then (CreateOrderResult.badRequest, st)
    else
      match resolveItems st.products req.items with
      | Except.error msg => (CreateOrderResult.productNotFound msg, st)
      | Except.ok orderItems =>
        let order := buildOrder now storeId req.customerPhone orderItems
        let st' : ServerState := { st with orders := st.orders ++ [order] }
        let store := st.stores.find? (fun s => s.storeId == storeId)
        (CreateOrderResult.ok order
          (store.map (fun s =>
            { upiId := s.upiId
              upiQrCode := s.upiQrCode ++ "&am=" ++ toString order.total
                             ++ "&tn=" ++ order.orderId })),
         st')

/-- Outcome of POST /api/orders/:orderId/claim-payment. -/
inductive ClaimResult where
  | notFound
  | alreadyProcessed
  | ok (order : Order)
  deriving DecidableEq

/-- POST /api/orders/:orderId/claim-payment. -/
def claimPayment (now : Nat) (st : ServerState) (orderId : String)
    (utrLast4 : String) (paidAmount : Nat) : ClaimResult × ServerState :=
  match findOrder st.orders orderId with
  | none => (ClaimResult.notFound, st)
  | some order =>
    if order.status != OrderStatus.pending_payment then
      (ClaimResult.alreadyProcessed, st)
    else
      let updated := { order with
        status := OrderStatus.payment_claimed
        paymentClaimedAt := some now
        utrLast4 := some utrLast4
        paidAmount := some paidAmount }
      (ClaimResult.ok updated,
       { st with orders := updateOrder st.orders orderId (fun _ => updated) })

/-- Outcome of POST /api/cashier/verify-order. -/
inductive VerifyResult where
  | notFound
  | ok (order : Order)
  deriving DecidableEq

/-- The branch of the verify handler that mutates the order: status forcibly
set, only the stamps of the branch taken are written. -/
def applyVerify (now : Nat) (cashierId : Option String) (verified : Bool)
    (notes : Option String) (o : Order) : Order :=
  if verified then
    { o with
      status := OrderStatus.verified
      verifiedAt := some now
      verifiedBy := some (cashierId.getD "cashier")
      verificationNotes := notes }
  else
    { o with
      status := OrderStatus.rejected
      rejectedAt := some now
      rejectedBy := some (cashierId.getD "cashier")
      rejectionReason := notes }

/-- POST /api/cashier/verify-order.  `vid` is the uuid generated for the log
entry. -/
def verifyOrder (now : Nat) (vid : String) (st : ServerState) (orderId : String)
    (cashierId : Option String) (verified : Bool) (notes : Option String) :
    VerifyResult × ServerState :=
  match findOrder st.orders orderId with
  | none => (VerifyResult.notFound, st)
  | some order =>
    let updated := applyVerify now cashierId verified notes order
    let entry : VerificationRecord :=
      { verificationId := vid
        orderId := orderId
        cashierId := cashierId.getD "cashier"
        verified := verified
        notes := notes
        timestamp := now }
    (VerifyResult.ok updated,
     { st with
        orders := updateOrder st.orders orderId (fun _ => updated)
        verifications := st.verifications ++ [entry] })

/-- Outcome of POST /api/cashier/scan-exit-qr. -/
inductive ScanExitResult where
  | notFound
  | response (allowExit : Bool) (message : String) (order : Order)
  deriving DecidableEq

/-- The allowExit flag of a scan-exit response, when the order was found. -/
def ScanExitResult.allow : ScanExitResult → Option Bool
  | ScanExitResult.notFound => none
  | ScanExitResult.response b _ _ => some b

/-- POST /api/cashier/scan-exit-qr. -/
def scanExit (now : Nat) (st : ServerState) (orderId : String) :
    ScanExitResult × ServerState :=
  match findOrder st.orders orderId with
  | none => (ScanExitResult.notFound, st)
  | some order =>
    if order.status == OrderStatus.verified then
      let updated := { order with
        status := OrderStatus.completed
        completedAt := some now }
      (ScanExitResult.response true "Customer can exit" updated,
       { st with orders := updateOrder st.orders orderId (fun _ => updated) })
    else if order.status == OrderStatus.payment_claimed then
      (ScanExitResult.response false "Payment not verified yet" order, st)
    else if order.status == OrderStatus.pending_payment then
      (ScanExitResult.response false "Payment not completed" order, st)
    else
      (ScanExitResult.response false "Invalid order status" order, st)

/-- Milliseconds per calendar day; `createdAt.startsWith(today)` on ISO
strings compares UTC calendar days, i.e. `createdAt / msPerDay`. -/
def msPerDay : Nat := 86400000

/-- The analytics object of GET /api/analytics/dashboard. -/
structure Analytics where
  totalOrders : Nat
  todayOrders : Nat
  completedOrders : Nat
  pendingOrders : Nat
  totalRevenue : Nat
  todayRevenue : Nat
  averageOrderValue : Nat
  deriving DecidableEq

/-- GET /api/analytics/dashboard. -/
def dashboard (now : Nat) (st : ServerState) (storeId : Option String) : Analytics :=
  let storeOrders :=
    match storeId with
    | none => st.orders
    | some sid => st.orders.filter (fun o => o.storeId == sid)
  let todayOrders := storeOrders.filter (fun o => o.createdAt / msPerDay == now / msPerDay)
  let completedOrders := storeOrders.filter (fun o => o.status == OrderStatus.completed)
  let pendingOrders := storeOrders.filter
    (fun o => o.status == OrderStatus.pending_payment || o.status == OrderStatus.payment_claimed)
  let totalRevenue := (completedOrders.map Order.total).sum
  let todayRevenue :=
    ((todayOrders.filter (fun o => o.status == OrderStatus.completed)).map Order.total).sum
  { totalOrders := storeOrders.length
    todayOrders := todayOrders.length
    completedOrders := completedOrders.length
    pendingOrders := pendingOrders.length
    totalRevenue := totalRevenue
    todayRevenue := todayRevenue
    averageOrderValue :=
      if completedOrders.length > 0 then roundHalfUp totalRevenue completedOrders.length
      else 0 }

/-! ## Shared lemmas -/

/-- `Array.find` + in-place mutation: after rewriting the first match, the
first match of the same predicate is the rewritten element. -/
theorem updateFirst_find? (p : Order → Bool) (f : Order → Order) (l : List Order)
    (o : Order) (h : l.find? p = some o) (hf : p (f o) = true) :
    (updateFirst p f l).find? p = some (f o) := by
  induction l with
  | nil => simp at h
  | cons a rest ih =>
    unfold updateFirst
    by_cases hpa : p a
    · rw [List.find?_cons_of_pos _ hpa] at h
      injection h with h
      subst h
      rw [if_pos hpa, List.find?_cons_of_pos _ hf]
    · rw [List.find?_cons_of_neg _ hpa] at h
      rw [if_neg hpa, List.find?_cons_of_neg _ hpa]
      exact ih h

/-- If some requested item's product is missing from the catalog, resolution
of the whole item list throws. -/
theorem resolveItems_error_of_missing (prods : List Product) :
    ∀ reqItems : List CreateItemReq,
      (∃ item ∈ reqItems, prods.find? (fun p => p.productId == item.productId) = none) →
      ∃ msg, resolveItems prods reqItems = Except.error msg := by
  intro reqItems
  induction reqItems with
  | nil =>
    rintro ⟨item, hmem, -⟩
    simp at hmem
  | cons a rest ih =>
    rintro ⟨item, hmem, hnone⟩
    unfold resolveItems
    cases hfa : prods.find? (fun p => p.productId == a.productId) with
    | none => exact ⟨_, rfl⟩
    | some pa =>
      have hmem' : item ∈ rest := by
        rcases List.mem_cons.mp hmem with h | h
        · subst h
          rw [hfa] at hnone
          cases hnone
        · exact h
      obtain ⟨msg, hmsg⟩ := ih ⟨item, hmem', hnone⟩
      rw [hmsg]
      exact ⟨msg, rfl⟩

/-- Every successfully resolved item carries `itemTotal = price × quantity`. -/
theorem resolveItems_ok_itemTotal (prods : List Product) :
    ∀ (reqItems : List CreateItemReq) (l : List OrderItem),
      resolveItems prods reqItems = Except.ok l →
      ∀ it ∈ l, it.itemTotal = it.product.price * it.quantity := by
  intro reqItems
  induction reqItems with
  | nil =>
    intro l h it hit
    unfold resolveItems at h
    injection h with h
    subst h
    simp at hit
  | cons a rest ih =>
    intro l h it hit
    unfold resolveItems at h
    cases hfa : prods.find? (fun p => p.productId == a.productId) with
    | none => rw [hfa] at h; cases h
    | some pa =>
      rw [hfa] at h
      cases hres : resolveItems prods rest with
      | error e => rw [hres] at h; cases h
      | ok tail =>
        rw [hres] at h
        injection h with h
        subst h
        rcases List.mem_cons.mp hit with h | h
        · subst h; rfl
        · exact ih tail hres it h

/-- The `subtotal += itemTotal` accumulation equals the sum of item totals. -/
theorem foldl_add_itemTotal (l : List OrderItem) :
    ∀ n : Nat, l.foldl (fun s it => s + it.itemTotal) n = n + (l.map OrderItem.itemTotal).sum := by
  induction l with
  | nil => intro n; simp
  | cons a t ih => intro n; simp [ih, Nat.add_assoc]

/-- Inversion of the successful create path: success means the storeId was
present, every item resolved, and the returned order is the built literal. -/
theorem createOrder_ok_inv (now : Nat) (st : ServerState) (req : CreateOrderReq)
    (order : Order) (upi : Option UpiDetails)
    (h : (createOrder now st req).1 = CreateOrderResult.ok order upi) :
    ∃ sid items, req.storeId = some sid ∧
      resolveItems st.products req.items = Except.ok items ∧
      order = buildOrder now sid req.customerPhone items := by
  unfold createOrder at h
  split at h
  · simp at h
  · rename_i sid heq
    split at h
    · simp at h
    · split at h
      · simp at h
      · rename_i items hres
        simp at h
        exact ⟨sid, items, heq, hres, h.1.symm⟩

/-! ## Test fixtures (used by witnesses and counterexamples) -/

/-- A sample catalog product with unit price 100. -/
def prodP1 : Product :=
  { productId := "P1", barcode := "B1", name := "Milk", brand := "Acme",
    category := "Dairy", price := 100 }

/-- A server state holding just the sample product. -/
def stBase : ServerState :=
  { stores := [], products := [prodP1], orders := [], verifications := [] }

/-- A valid create request: two units of P1. -/
def reqW : CreateOrderReq :=
  { storeId := some "S1", items := [{ productId := "P1", quantity := 2 }],
    customerPhone := some "999" }

/-- The resolved order line of `reqW`. -/
def itemW : OrderItem := { product := prodP1, quantity := 2, itemTotal := 200 }

/-- The order `createOrder 1000 stBase reqW` builds. -/
def orderW : Order := buildOrder 1000 "S1" (some "999") [itemW]

/-- A create request referencing the unknown product PX. -/
def reqBad : CreateOrderReq :=
  { storeId := some "S1",
    items := [{ productId := "P1", quantity := 1 }, { productId := "PX", quantity := 1 }],
    customerPhone := none }

/-! ## Claims -/

/-- Does a create-order outcome report a product-not-found failure? -/
def isProductNotFound : CreateOrderResult → Bool
  | CreateOrderResult.productNotFound _ => true
  | _ => false

/-- Claim C2: a createOrder request whose item list references at least one
product identifier not in the catalog persists no order (the state, hence the
order repository, is unchanged) and reports a product-not-found failure. -/
theorem c2_unknown_product_all_or_nothing (now : Nat) (st : ServerState)
    (req : CreateOrderReq) (sid : String)
    (hs : req.storeId = some sid)
    (hmiss : ∃ item ∈ req.items,
        st.products.find? (fun p => p.productId == item.productId) = none) :
    isProductNotFound (createOrder now st req).1 = true ∧
    (createOrder now st req).2 = st := by
  obtain ⟨msg, herr⟩ := resolveItems_error_of_missing st.products req.items hmiss
  have hne : req.items.isEmpty = false := by
    obtain ⟨item, hit, -⟩ := hmiss
    cases hi : req.items with
    | nil => rw [hi] at hit; simp at hit
    | cons a t => simp [hi]
  simp [createOrder, hs, hne, herr, isProductNotFound]

/-- Witness for C2 at a concrete request containing unknown product PX. -/
theorem c2_unknown_product_all_or_nothing_witness :
    isProductNotFound (createOrder 1000 stBase reqBad).1 = true ∧
    (createOrder 1000 stBase reqBad).2 = stBase :=
  c2_unknown_product_all_or_nothing 1000 stBase reqBad "S1" rfl
    ⟨{ productId := "PX", quantity := 1 }, by decide, by decide⟩

/-- Claim C3: every successfully created order satisfies
subtotal = Σ price×qty, tax = round(subtotal×0.05) (half-up, i.e.
`roundHalfUp subtotal 20`), and total = subtotal + tax. -/
theorem c3_created_order_totals (now : Nat) (st : ServerState) (req : CreateOrderReq)
    (order : Order) (upi : Option UpiDetails)
    (h : (createOrder now st req).1 = CreateOrderResult.ok order upi) :
    order.subtotal = (order.items.map (fun it => it.product.price * it.quantity)).sum ∧
    order.tax = roundHalfUp order.subtotal 20 ∧
    order.total = order.subtotal + order.tax := by
  obtain ⟨sid, items, -, hres, horder⟩ := createOrder_ok_inv now st req order upi h
  subst horder
  refine ⟨?_, rfl, rfl⟩
  have hcong : items.map OrderItem.itemTotal
      = items.map (fun it => it.product.price * it.quantity) :=
    List.map_congr_left (fun it hit => resolveItems_ok_itemTotal st.products req.items items hres it hit)
  show items.foldl (fun s it => s + it.itemTotal) 0
      = (items.map (fun it => it.product.price * it.quantity)).sum
  rw [foldl_add_itemTotal, Nat.zero_add, hcong]

/-- Witness for C3 at a concrete successful creation. -/
theorem c3_created_order_totals_witness :
    orderW.subtotal = (orderW.items.map (fun it => it.product.price * it.quantity)).sum ∧
    orderW.tax = roundHalfUp orderW.subtotal 20 ∧
    orderW.total = orderW.subtotal + orderW.tax :=
  c3_created_order_totals 1000 stBase reqW orderW none (by decide)

/-- Claim C7: every order returned by a successful createOrder has status
`pending_payment` and expiry exactly creation time + 10 minutes. -/
theorem c7_fresh_order_status_expiry (now : Nat) (st : ServerState) (req : CreateOrderReq)
    (order : Order) (upi : Option UpiDetails)
    (h : (createOrder now st req).1 = CreateOrderResult.ok order upi) :
    order.status = OrderStatus.pending_payment ∧
    order.expiresAt = order.createdAt + 10 * 60 * 1000 := by
  obtain ⟨sid, items, -, -, horder⟩ := createOrder_ok_inv now st req order upi h
  subst horder
  exact ⟨rfl, rfl⟩

/-- Witness for C7 at a concrete successful creation. -/
theorem c7_fresh_order_status_expiry_witness :
    orderW.status = OrderStatus.pending_payment ∧
    orderW.expiresAt = orderW.createdAt + 10 * 60 * 1000 :=
  c7_fresh_order_status_expiry 1000 stBase reqW orderW none (by decide)

/-- A pending-payment order sitting in a one-order state. -/
def ordPending : Order := buildOrder 500 "S1" none [itemW]

/-- A state holding just `ordPending`. -/
def stOne : ServerState :=
  { stores := [], products := [prodP1], orders := [ordPending], verifications := [] }

/-- An order already past `pending_payment`. -/
def ordClaimed : Order :=
  { buildOrder 500 "S1" none [itemW] with
    orderId := "OC1", status := OrderStatus.payment_claimed }

/-- A state holding just `ordClaimed`. -/
def stClaimed : ServerState :=
  { stores := [], products := [prodP1], orders := [ordClaimed], verifications := [] }

/-- An order carrying rejection stamps from an earlier verified=false call. -/
def ordRejected : Order :=
  { buildOrder 300 "S1" none [itemW] with
    orderId := "OR1", status := OrderStatus.rejected,
    rejectedAt := some 350, rejectedBy := some "c1", rejectionReason := some "mismatch" }

/-- A state holding just `ordRejected`. -/
def stRejected : ServerState :=
  { stores := [], products := [prodP1], orders := [ordRejected], verifications := [] }

/-- Claim C5: for every existing order, regardless of its current status, a
verifyOrder call appends exactly one VerificationRecord to the log, whose
`verified` field is the caller-supplied flag. -/
theorem c5_verify_appends_one_record (now : Nat) (vid : String) (st : ServerState)
    (oid : String) (cid : Option String) (v : Bool) (notes : Option String) (o : Order)
    (hfind : findOrder st.orders oid = some o) :
    (verifyOrder now vid st oid cid v notes).2.verifications =
      st.verifications ++
        [{ verificationId := vid, orderId := oid, cashierId := cid.getD "cashier",
           verified := v, notes := notes, timestamp := now }] := by
  unfold verifyOrder
  rw [hfind]

/-- Witness for C5: verifying the rejected order `ordRejected` still appends
exactly one log entry carrying verified=true. -/
theorem c5_verify_appends_one_record_witness :
    (verifyOrder 600 "V1" stRejected "OR1" none true (some "ok")).2.verifications =
      stRejected.verifications ++
        [{ verificationId := "V1", orderId := "OR1", cashierId := "cashier",
           verified := true, notes := some "ok", timestamp := 600 }] :=
  c5_verify_appends_one_record 600 "V1" stRejected "OR1" none true (some "ok")
    ordRejected (by decide)

/-- Claim C6: claimPayment on an existing order whose status is not
`pending_payment` reports the already-processed conflict and leaves the whole
state — in particular every field of the order — unchanged. -/
theorem c6_claim_conflict_no_mutation (now : Nat) (st : ServerState) (oid : String)
    (utr : String) (amt : Nat) (o : Order)
    (hfind : findOrder st.orders oid = some o)
    (hstatus : o.status ≠ OrderStatus.pending_payment) :
    (claimPayment now st oid utr amt).1 = ClaimResult.alreadyProcessed ∧
    (claimPayment now st oid utr amt).2 = st := by
  unfold claimPayment
  rw [hfind]
  have hb : (o.status != OrderStatus.pending_payment) = true := by
    simp [bne_iff_ne, hstatus]
  dsimp only
  rw [if_pos hb]
  exact ⟨rfl, rfl⟩

/-- Witness for C6 on the already-claimed order `ordClaimed`. -/
theorem c6_claim_conflict_no_mutation_witness :
    (claimPayment 700 stClaimed "OC1" "1234" 210).1 = ClaimResult.alreadyProcessed ∧
    (claimPayment 700 stClaimed "OC1" "1234" 210).2 = stClaimed :=
  c6_claim_conflict_no_mutation 700 stClaimed "OC1" "1234" 210 ordClaimed
    (by decide) (by decide)

/-- Claim C10: verifyOrder writes only the stamps of the branch taken.  On
verified=true it sets the verification stamps and leaves the rejection stamps
(rejectedAt, rejectedBy, rejectionReason) exactly as they were; on
verified=false it sets the rejection stamps and leaves the verification stamps
(verifiedAt, verifiedBy, verificationNotes) exactly as they were.  The updated
order is both returned and stored. -/
theorem c10_verify_overwrites_only_taken_branch (now : Nat) (vid : String)
    (st : ServerState) (oid : String) (cid : Option String) (v : Bool)
    (notes : Option String) (o : Order)
    (hfind : findOrder st.orders oid = some o) :
    (verifyOrder now vid st oid cid v notes).1 =
      VerifyResult.ok (applyVerify now cid v notes o) ∧
    findOrder (verifyOrder now vid st oid cid v notes).2.orders oid =
      some (applyVerify now cid v notes o) ∧
    (v = true →
      (applyVerify now cid v notes o).status = OrderStatus.verified ∧
      (applyVerify now cid v notes o).verifiedAt = some now ∧
      (applyVerify now cid v notes o).rejectedAt = o.rejectedAt ∧
      (applyVerify now cid v notes o).rejectedBy = o.rejectedBy ∧
      (applyVerify now cid v notes o).rejectionReason = o.rejectionReason) ∧
    (v = false →
      (applyVerify now cid v notes o).status = OrderStatus.rejected ∧
      (applyVerify now cid v notes o).rejectedAt = some now ∧
      (applyVerify now cid v notes o).verifiedAt = o.verifiedAt ∧
      (applyVerify now cid v notes o).verifiedBy = o.verifiedBy ∧
      (applyVerify now cid v notes o).verificationNotes = o.verificationNotes) := by
  have hfind' : st.orders.find? (fun x => x.orderId == oid) = some o := hfind
  have hp : (o.orderId == oid) = true :=
    @List.find?_some Order (fun x => x.orderId == oid) o st.orders hfind'
  have hid : ((applyVerify now cid v notes o).orderId == oid) = true := by
    cases v <;> exact hp
  refine ⟨?_, ?_, ?_, ?_⟩
  · unfold verifyOrder
    rw [hfind]
  · unfold verifyOrder
    rw [hfind]
    show findOrder (updateOrder st.orders oid (fun _ => applyVerify now cid v notes o)) oid = _
    unfold findOrder updateOrder
    exact updateFirst_find? _ _ st.orders o hfind hid
  · intro hv; subst hv; simp [applyVerify]
  · intro hv; subst hv; simp [applyVerify]

/-- Witness for C10: re-verifying `ordRejected` with verified=true keeps its
rejection stamps, so the order carries both stamp sets afterwards. -/
theorem c10_verify_overwrites_only_taken_branch_witness :
    (verifyOrder 400 "V2" stRejected "OR1" (some "c2") true (some "ok")).1 =
      VerifyResult.ok (applyVerify 400 (some "c2") true (some "ok") ordRejected) ∧
    findOrder (verifyOrder 400 "V2" stRejected "OR1" (some "c2") true (some "ok")).2.orders "OR1" =
      some (applyVerify 400 (some "c2") true (some "ok") ordRejected) ∧
    (true = true →
      (applyVerify 400 (some "c2") true (some "ok") ordRejected).status = OrderStatus.verified ∧
      (applyVerify 400 (some "c2") true (some "ok") ordRejected).verifiedAt = some 400 ∧
      (applyVerify 400 (some "c2") true (some "ok") ordRejected).rejectedAt = ordRejected.rejectedAt ∧
      (applyVerify 400 (some "c2") true (some "ok") ordRejected).rejectedBy = ordRejected.rejectedBy ∧
      (applyVerify 400 (some "c2") true (some "ok") ordRejected).rejectionReason = ordRejected.rejectionReason) ∧
    (true = false →
      (applyVerify 400 (some "c2") true (some "ok") ordRejected).status = OrderStatus.rejected ∧
      (applyVerify 400 (some "c2") true (some "ok") ordRejected).rejectedAt = some 400 ∧
      (applyVerify 400 (some "c2") true (some "ok") ordRejected).verifiedAt = ordRejected.verifiedAt ∧
      (applyVerify 400 (some "c2") true (some "ok") ordRejected).verifiedBy = ordRejected.verifiedBy ∧
      (applyVerify 400 (some "c2") true (some "ok") ordRejected).verificationNotes = ordRejected.verificationNotes) :=
  c10_verify_overwrites_only_taken_branch 400 "V2" stRejected "OR1" (some "c2") true
    (some "ok") ordRejected (by decide)

/-- A verified order awaiting exit scan. -/
def ordVerified : Order :=
  { buildOrder 300 "S1" none [itemW] with
    orderId := "OV1", status := OrderStatus.verified,
    verifiedAt := some 350, verifiedBy := some "c1" }

/-- A state holding just `ordVerified`. -/
def stVerified : ServerState :=
  { stores := [], products := [prodP1], orders := [ordVerified], verifications := [] }

/-- A completed (terminal) order. -/
def ordCompleted : Order :=
  { buildOrder 300 "S1" none [itemW] with
    orderId := "OD1", status := OrderStatus.completed, completedAt := some 400 }

/-- A state holding just `ordCompleted`. -/
def stCompleted : ServerState :=
  { stores := [], products := [prodP1], orders := [ordCompleted], verifications := [] }

/-- Claim C4: for an existing order, scanExit allows exit iff the status was
`verified` immediately before the call; in that case the stored order becomes
`completed` with the completion time stamped, and a second scanExit on it
returns allowExit=false and changes nothing. -/
theorem c4_scanexit_allow_iff_verified (now now2 : Nat) (st : ServerState)
    (oid : String) (o : Order)
    (hfind : findOrder st.orders oid = some o) :
    ((scanExit now st oid).1.allow = some true ↔ o.status = OrderStatus.verified) ∧
    (o.status = OrderStatus.verified →
      findOrder (scanExit now st oid).2.orders oid =
        some { o with status := OrderStatus.completed, completedAt := some now } ∧
      (scanExit now2 (scanExit now st oid).2 oid).1.allow = some false ∧
      (scanExit now2 (scanExit now st oid).2 oid).2 = (scanExit now st oid).2) := by
  have hfind' : st.orders.find? (fun x => x.orderId == oid) = some o := hfind
  have hp : (o.orderId == oid) = true :=
    @List.find?_some Order (fun x => x.orderId == oid) o st.orders hfind'
  constructor
  · cases hs : o.status <;>
      simp [scanExit, hfind, hs, ScanExitResult.allow]
  · intro hs
    have hupd : findOrder (updateOrder st.orders oid
        (fun _ => { o with status := OrderStatus.completed, completedAt := some now })) oid
        = some { o with status := OrderStatus.completed, completedAt := some now } := by
      unfold findOrder updateOrder
      exact updateFirst_find? _ _ st.orders o hfind' hp
    have hscan : scanExit now st oid =
        (ScanExitResult.response true "Customer can exit"
            { o with status := OrderStatus.completed, completedAt := some now },
         { st with
            orders := updateOrder st.orders oid
                        (fun _ => { o with status := OrderStatus.completed,
                                           completedAt := some now }) }) := by
      simp [scanExit, hfind, hs]
    have hscan2 : scanExit now2 (scanExit now st oid).2 oid =
        (ScanExitResult.response false "Invalid order status"
            { o with status := OrderStatus.completed, completedAt := some now },
         (scanExit now st oid).2) := by
      rw [hscan]
      simp [scanExit, hupd]
    refine ⟨?_, ?_, ?_⟩
    · rw [hscan]; exact hupd
    · rw [hscan2]; rfl
    · rw [hscan2]

/-- Witness for C4 on the concrete verified order `ordVerified`. -/
theorem c4_scanexit_allow_iff_verified_witness :
    ((scanExit 800 stVerified "OV1").1.allow = some true ↔
      ordVerified.status = OrderStatus.verified) ∧
    (ordVerified.status = OrderStatus.verified →
      findOrder (scanExit 800 stVerified "OV1").2.orders "OV1" =
        some { ordVerified with status := OrderStatus.completed, completedAt := some 800 } ∧
      (scanExit 900 (scanExit 800 stVerified "OV1").2 "OV1").1.allow = some false ∧
      (scanExit 900 (scanExit 800 stVerified "OV1").2 "OV1").2 =
        (scanExit 800 stVerified "OV1").2) :=
  c4_scanexit_allow_iff_verified 800 900 stVerified "OV1" ordVerified (by decide)

/-- Claim C1 is false as stated: `ordCompleted` is in the terminal status
`completed`, yet a verifyOrder call (which has no status guard) moves its
stored status to `rejected`. -/
theorem c1_terminal_status_counterexample :
    ordCompleted.status = OrderStatus.completed ∧
    (verifyOrder 500 "V9" stCompleted "OD1" none false none).2.orders.map Order.status
      = [OrderStatus.rejected] := by decide

/-- Claim C1 (amended): once an order's status is terminal (`rejected` or
`completed`), claimPayment and scanExit leave the state — hence the status —
unchanged; verifyOrder, which deliberately has no status guard, can still
overwrite the status. -/
theorem c1_terminal_frozen_for_claim_and_scan (now : Nat) (st : ServerState)
    (oid : String) (utr : String) (amt : Nat) (o : Order)
    (hfind : findOrder st.orders oid = some o)
    (hterm : o.status = OrderStatus.rejected ∨ o.status = OrderStatus.completed) :
    (claimPayment now st oid utr amt).2 = st ∧ (scanExit now st oid).2 = st := by
  constructor
  · unfold claimPayment
    rw [hfind]
    have hb : (o.status != OrderStatus.pending_payment) = true := by
      rcases hterm with h | h <;> simp [bne_iff_ne, h]
    dsimp only
    rw [if_pos hb]
  · rcases hterm with h | h <;> simp [scanExit, hfind, h]

/-- Witness for the amended C1 on the completed order `ordCompleted`. -/
theorem c1_terminal_frozen_for_claim_and_scan_witness :
    (claimPayment 900 stCompleted "OD1" "9999" 1).2 = stCompleted ∧
    (scanExit 900 stCompleted "OD1").2 = stCompleted :=
  c1_terminal_frozen_for_claim_and_scan 900 stCompleted "OD1" "9999" 1 ordCompleted
    (by decide) (by decide)

/-- Claim C8: the dashboard's averageOrderValue is the half-up rounded
quotient of total revenue by the completed-order count when that count is
positive, and 0 when there are no completed orders (no division by zero). -/
theorem c8_average_order_value_guarded (now : Nat) (st : ServerState)
    (sid : Option String) :
    (dashboard now st sid).averageOrderValue =
      (if (dashboard now st sid).completedOrders > 0 then
        roundHalfUp (dashboard now st sid).totalRevenue (dashboard now st sid).completedOrders
      else 0) := rfl

/-- A first customer's create request. -/
def reqNine1 : CreateOrderReq :=
  { storeId := some "S1", items := [{ productId := "P1", quantity := 1 }],
    customerPhone := some "111" }

/-- A second, different customer's create request. -/
def reqNine2 : CreateOrderReq :=
  { storeId := some "S1", items := [{ productId := "P1", quantity := 1 }],
    customerPhone := some "222" }

/-- The state after two createOrder calls in the same clock millisecond. -/
def stNine : ServerState := (createOrder 1000 (createOrder 1000 stBase reqNine1).2 reqNine2).2

/-- Claim C9 fails on the code: the id is generated as "ORD" + Date.now(), so
two createOrder calls in the same millisecond persist two distinct orders
(different customers) with identical identifiers. -/
theorem c9_same_millisecond_id_collision :
    stNine.orders.map Order.orderId = ["ORD1000", "ORD1000"] ∧
    stNine.orders.map Order.customerPhone = ["111", "222"] := by decide

end ScanAndGo
